import Mathlib

/-!
Shallow embedding of the feature-selection and dynamic-styling core of the
`national_roadless_areas` map client (`src/components/MapView.tsx`, plus the
layer/source declarations).  Property bags are JavaScript-like value maps;
JavaScript truthiness is modelled explicitly, and computations that can throw
in JavaScript are modelled with `Option`.
-/

namespace RoadlessMap

/-- A JavaScript property value as it occurs in the GeoJSON property bags:
a string, a (finite) number, or null.  Numbers are modelled as rationals;
the separate `GeomResult.nonFinite` constructor models NaN/Infinity results
of geometry computations. -/
inductive Value where
  | vStr (s : String)
  | vNum (q : ℚ)
  | vNull
deriving DecidableEq, Repr

/-- JavaScript truthiness of a property value: a string is truthy iff
non-empty, a number iff non-zero, null is falsy. -/
def truthy : Value → Bool
  | .vStr s => s ≠ ""
  | .vNum q => q ≠ 0
  | .vNull => false

/-- A feature's property bag (`f.properties`). -/
abbrev Props := List (String × Value)

/-- Property lookup (`props[k]`): `none` models JavaScript `undefined`. -/
def lookup (props : Props) (k : String) : Option Value :=
  (props.find? fun kv => kv.1 = k).map fun kv => kv.2

/-- Models `props[k] || null`: the value when present and truthy, else null.
This is how `generalClickHandler` extracts `props.DISTRICT || null`, and how
the district popup decides whether `Acres` / `SUM_RoadlessAreasAcres` are
displayed (`props.Acres ? … : "—"`). -/
def truthyLookup (props : Props) (k : String) : Option Value :=
  match lookup props k with
  | some v => if truthy v then some v else none
  | none => none

/-- Models `props[k] || fallback` with a string fallback, as in
`props.LISTING_NA || "Unknown Representative"`. -/
def strFallback (props : Props) (k : String) (fallback : String) : Value :=
  match lookup props k with
  | some v => if truthy v then v else .vStr fallback
  | none => .vStr fallback

/-- A truthiness-guarded probe over a key chain, as in the JavaScript chain
`props.TRAIL_NAME || props.NAME || props.TRAIL || dflt`. -/
def firstTruthy (props : Props) : List String → Value → Value
  | [], dflt => dflt
  | k :: ks, dflt =>
    match lookup props k with
    | some v => if truthy v then v else firstTruthy props ks dflt
    | none => firstTruthy props ks dflt

/-- A rendered feature as seen by the click handlers: the owning layer id
(`feature.layer?.id`), the property bag, and the source id (`feature.source`). -/
structure Feature where
  layerId : Option String
  properties : Props
  source : String
deriving DecidableEq, Repr

/-- The fixed layer-precedence list of `generalClickHandler`
(higher index = higher priority). -/
def layerPriority : List String :=
  ["congressional-districts-fill",
   "congressional-districts-line",
   "roadless-fill",
   "oregon-trails-line",
   "pct-line"]

/-- Models `layerPriority.indexOf(layerId)`: the index in the priority list,
`-1` when the layer is absent. -/
def priorityIndex (lid : String) : Int :=
  match layerPriority.findIdx? fun s => s = lid with
  | some n => (n : Int)
  | none => -1

/-- The priority index of a feature: `-1` when it has no owning layer id or
its layer is absent from the list (the loop skips features without a layer id,
which is equivalent to giving them index `-1`, since `-1` never exceeds the
running maximum). -/
def featIdx (f : Feature) : Int :=
  match f.layerId with
  | some lid => priorityIndex lid
  | none => -1

/-- The scanning loop of `generalClickHandler`: walks the features, keeping
the first feature whose priority index strictly exceeds the running maximum
(initially `-1`). -/
def resolveAux : List Feature → Option Feature → Int → Option Feature
  | [], best, _ => best
  | f :: rest, best, bestIdx =>
    match f.layerId with
    | some lid =>
      let idx := priorityIndex lid
      if bestIdx < idx then resolveAux rest (some f) idx
      else resolveAux rest best bestIdx
    | none => resolveAux rest best bestIdx

/-- The resolver `resolveTopFeature`: the highest-priority feature under the click point,
as computed by the loop in `generalClickHandler` (`highestPriorityFeature`
starting from `null` with `highestPriorityIndex = -1`). -/
def resolveTopFeature (features : List Feature) : Option Feature :=
  resolveAux features none (-1)

/-- Specification-side resolver, following the spec's words: the maximum
priority index over the features (floor `-1`), -/
def maxFrom (fs : List Feature) (b : Int) : Int :=
  fs.foldl (fun acc f => max acc (featIdx f)) b

/-- Specification-side resolver, following the spec's words: the first
feature (in input enumeration order) attaining the maximum priority index. -/
def firstAtMax (fs : List Feature) : Option Feature :=
  fs.find? fun f => featIdx f = maxFrom fs (-1)

/-! ## District popup builder (`generalClickHandler`, district branch) -/

/-- Models `split(", ")` on the character list: scans left to right, starting a new
part at each non-overlapping occurrence of the two-character separator. -/
def splitCommaSpace : List Char → List (List Char)
  | [] => [[]]
  | ',' :: ' ' :: rest => [] :: splitCommaSpace rest
  | c :: rest =>
    match splitCommaSpace rest with
    | [] => [[c]]
    | part :: parts => (c :: part) :: parts

/-- JavaScript `raw.split(", ")`. -/
def splitOnCommaSpace (s : String) : List String :=
  (splitCommaSpace s.data).map String.mk

/-- Tests whether `needle` occurs at the start of `hay`. -/
def beginsWith : List Char → List Char → Bool
  | [], _ => true
  | _ :: _, [] => false
  | c :: cs, d :: ds => c = d && beginsWith cs ds

/-- Tests whether `needle` occurs somewhere in `hay` (contiguously). -/
def containsSub (hay needle : List Char) : Bool :=
  match hay with
  | [] => beginsWith needle []
  | _ :: rest => beginsWith needle hay || containsSub rest needle

/-- Models `String.padStart(2, "0")`: left-pad with `'0'` to length 2. -/
def padStart2 (s : String) : String :=
  if s.length < 2 then String.mk (List.replicate (2 - s.length) '0') ++ s else s

/-- The `Last, First` → `First Last` reordering applied to
`representativeNameRaw`: skipped when the raw value is the fallback string,
applied when `split(", ")` yields exactly two parts, pass-through otherwise. -/
def formatRepName (raw : String) : String :=
  if raw = "Unknown Representative" then raw
  else
    match splitOnCommaSpace raw with
    | [lastName, firstName] => firstName ++ " " ++ lastName
    | _ => raw

/-- Models `districtNumber = props.DISTRICT || "Unknown"` followed by the
`.padStart(2, "0")` call: the result is a string, or `none` when the call
would throw a TypeError (a truthy non-string value has no `padStart`). -/
def districtNumberStr (props : Props) : Option String :=
  match strFallback props "DISTRICT" "Unknown" with
  | .vStr s => some s
  | _ => none

/-- Models `representativeNameRaw = props.LISTING_NA || "Unknown Representative"`
followed by the reformatting block: `none` when the `.split(", ")` call would
throw (a truthy non-string value has no `split`). -/
def formattedRepName (props : Props) : Option String :=
  match strFallback props "LISTING_NA" "Unknown Representative" with
  | .vStr raw => some (formatRepName raw)
  | _ => none

/-- The content of the congressional-district popup: the (unpadded) district
number, the party value, the derived representative label, and the two acreage
fields (`none` renders as the "—" sentinel, `some v` as the locale-formatted
value). -/
structure DistrictPopup where
  districtNumber : String
  party : Value
  repLabel : String
  totalAcres : Option Value
  roadlessAcres : Option Value
deriving DecidableEq, Repr

/-- Rendering of a value inside a template literal (`${party}`). -/
def valueDisplay : Value → String
  | .vStr s => s
  | .vNum q => toString q
  | .vNull => "null"

/-- Builds the district popup from the top feature's properties, mirroring the
district branch of `generalClickHandler`: `none` models the handler throwing
before the popup is opened (non-string name or district number reaching
`.split` / `.padStart`). -/
def buildDistrictPopup (props : Props) : Option DistrictPopup :=
  match formattedRepName props, districtNumberStr props with
  | some fn, some dn =>
    some
      { districtNumber := dn
        party := strFallback props "Party" "Unknown"
        repLabel :=
          "Rep. " ++ fn ++ " (" ++ valueDisplay (strFallback props "Party" "Unknown")
            ++ "–OR-" ++ padStart2 dn ++ ")"
        totalAcres := truthyLookup props "Acres"
        roadlessAcres := truthyLookup props "SUM_RoadlessAreasAcres" }
  | _, _ => none

/-! ## The general click handler and the selection state -/

/-- Tests whether `highestPriorityFeature.layer?.id` is one of the two congressional-district
layers. -/
def isDistrictLayer (lid : Option String) : Bool :=
  lid = some "congressional-districts-line" ∨ lid = some "congressional-districts-fill"

/-- Result of one invocation of `generalClickHandler`: the value passed to
`setSelectedDistrictId` and the popup opened (if any). -/
structure ClickResult where
  state : Option Value
  popup : Option DistrictPopup
deriving DecidableEq, Repr

/-- The handler `generalClickHandler`: resolves the top-priority feature; on a district
layer it stores `props.DISTRICT || null` as selected district and opens the
district popup, otherwise it clears the selection. -/
def generalClickHandler (features : List Feature) : ClickResult :=
  match resolveTopFeature features with
  | some f =>
    if isDistrictLayer f.layerId then
      { state := truthyLookup f.properties "DISTRICT"
        popup := buildDistrictPopup f.properties }
    else { state := none, popup := none }
  | none => { state := none, popup := none }

/-- The events that touch the selected-district state. -/
inductive Event where
  | click (features : List Feature)
  | popupClose
  | zoomChange (zoom : ℚ)

/-- The selection-state transition function: the general click handler sets
the state, the popup `close` listener resets it to null, and the zoom handler
never touches it. -/
def step (s : Option Value) : Event → Option Value
  | .click fs => (generalClickHandler fs).state
  | .popupClose => none
  | .zoomChange _ => s

/-! ## Paint derivation for the two district layers -/

/-- A paint value installed via `setPaintProperty`: a constant, or the
`["case", ["==", ["get", "DISTRICT"], d], sel, base]` expression. -/
inductive PaintVal where
  | const (q : ℚ)
  | caseDistrictEq (d : Value) (sel base : ℚ)
deriving DecidableEq, Repr

/-- The three paint properties the controller installs:
`fill-opacity` on `congressional-districts-fill`, `line-opacity` and
`line-width` on `congressional-districts-line`. -/
structure DistrictPaint where
  fillOpacity : PaintVal
  lineOpacity : PaintVal
  lineWidth : PaintVal
deriving DecidableEq, Repr

/-- Per-feature evaluation of an installed paint value by the render engine:
the case expression compares the feature's `DISTRICT` property against the
stored district (a missing property compares unequal). -/
def evalPaintVal (p : PaintVal) (props : Props) : ℚ :=
  match p with
  | .const q => q
  | .caseDistrictEq d sel base => if lookup props "DISTRICT" = some d then sel else base

/-- The baseline constants: fill-opacity 0.1, line-opacity 0.8,
line-width 1.5. -/
def baselinePaint : DistrictPaint :=
  ⟨.const 0.1, .const 0.8, .const 1.5⟩

/-- The selected-state expressions for district `d`:
0.4 / 1.0 / 2.5 where `DISTRICT` equals `d`, baseline otherwise. -/
def selectedPaint (d : Value) : DistrictPaint :=
  ⟨.caseDistrictEq d 0.4 0.1, .caseDistrictEq d 1.0 0.8, .caseDistrictEq d 2.5 1.5⟩

/-- Paint derivation as installed by the selected-district effect
(the `useEffect` keyed on `selectedDistrictId`): expressions only when
`currentZoom <= 8` and `selectedDistrictId` is truthy, constants otherwise.
The `getLayer` guards of the source are elided: both district layers exist
once `addMapLayers` has run. -/
def districtPaintOnSelect (s : Option Value) (zoom : ℚ) : DistrictPaint :=
  if zoom ≤ 8 then
    match s with
    | some d => if truthy d then selectedPaint d else baselinePaint
    | none => baselinePaint
  else baselinePaint

/-- Paint derivation as installed by `handleZoomChange` (the `zoom` listener):
the same conditional structure, transcribed from the zoom handler. -/
def districtPaintOnZoom (s : Option Value) (zoom : ℚ) : DistrictPaint :=
  if zoom ≤ 8 then
    match s with
    | some d => if truthy d then selectedPaint d else baselinePaint
    | none => baselinePaint
  else baselinePaint

/-! ## Geometry metrics (`onClick` area, `onTrailClick` length) -/

/-- Outcome of an external Turf geometry computation (`turf.area` /
`turf.length`): a finite number, a non-finite number (NaN/Infinity), or a
thrown exception on malformed geometry. -/
inductive GeomResult where
  | ok (v : ℚ)
  | nonFinite
  | err
deriving DecidableEq, Repr

/-- Square meters per acre: the divisor 4046.8564224. -/
def acreDivisor : ℚ := 40468564224 / 10000000

/-- Miles per meter: the factor 0.000621371. -/
def mileFactor : ℚ := 621371 / 1000000000

/-- The area computation of `onClick`: `turf.area` in m² divided by
4046.8564224, displayed only when finite; the "—" sentinel (`none`) on a
thrown exception or a non-finite result.  Total: the `try`/`catch` converts
every failure into the sentinel. -/
def computeAreaAcres (r : GeomResult) : Option ℚ :=
  match r with
  | .ok m2 => some (m2 / acreDivisor)
  | .nonFinite => none
  | .err => none

/-- What the trail popup displays as length. -/
inductive LengthDisplay where
  | sentinel
  | canonical (s : String)
  | gisMiles (v : Value)
  | computedMiles (q : ℚ)
deriving DecidableEq, Repr

/-- The hardcoded PCT length string. -/
def pctLengthString : String := "456.5 miles (of 2,650 miles total)"

/-- The length block of `onTrailClick`: pre-calculated `GIS_MILES` for
oregon-trails features carrying it (truthy), the hardcoded string for the
dedicated PCT source, and otherwise the geodesic `turf.length` in meters
times 0.000621371 (with the "—" sentinel when the computation throws or is
non-finite). -/
def lengthText (sourceId : String) (props : Props) (lenResult : GeomResult) :
    LengthDisplay :=
  if sourceId = "oregon-trails" ∧ (truthyLookup props "GIS_MILES").isSome then
    match truthyLookup props "GIS_MILES" with
    | some v => .gisMiles v
    | none => .sentinel
  else if sourceId = "pct" then .canonical pctLengthString
  else
    match lenResult with
    | .ok meters => .computedMiles (meters * mileFactor)
    | .nonFinite => .sentinel
    | .err => .sentinel

/-! ## Trail classification (`onTrailClick`, name/description block) -/

/-- Substring containment test (`String.prototype.includes`). -/
def strIncludes (s sub : String) : Bool :=
  containsSub s.data sub.data

/-- The name/description block of `onTrailClick`, dispatching on
`f.source`: fixed canonical text for the dedicated `pct` source; for
`oregon-trails` the truthiness chain over `TRAIL_NAME`/`NAME`/`TRAIL` with
its fallback and the `PACIFIC CREST` substring override; defaults
otherwise.  `none` models the TypeError thrown when a truthy non-string
`TRAIL_NAME` reaches `.includes`. -/
def classifyTrail (sourceId : String) (props : Props) : Option (Value × Value) :=
  if sourceId = "pct" then
    some (.vStr "Pacific Crest Trail - Oregon",
          .vStr "A long-distance hiking trail spanning the length of Oregon")
  else if sourceId = "oregon-trails" then
    let base : Value × Value :=
      (firstTruthy props ["TRAIL_NAME", "NAME", "TRAIL"] (.vStr "Oregon Trail"),
       firstTruthy props ["DESCRIPTION"] (.vStr "A trail in Oregon"))
    match lookup props "TRAIL_NAME" with
    | some v =>
      if truthy v then
        match v with
        | .vStr s =>
          if strIncludes s "PACIFIC CREST" then
            some (.vStr "Pacific Crest Trail - Oregon Section",
                  .vStr "A long-distance hiking trail spanning from Canada to Mexico")
          else some base
        | _ => none
      else some base
    | none => some base
  else some (.vStr "Unknown Trail", .vStr "")

/-! ## Specification-side definitions and concrete inputs -/

/-- The representative-name reordering rule as the specification words it:
split the raw name on the literal substring ", "; exactly two parts are
swapped into "First Last", anything else passes through unchanged. -/
def specRepReorder (raw : String) : String :=
  match splitOnCommaSpace raw with
  | [lastName, firstName] => firstName ++ " " ++ lastName
  | _ => raw

/-- A feature on the roadless polygon layer. -/
def roadlessDemoFeature : Feature :=
  { layerId := some "roadless-fill", properties := [], source := "roadless-src" }

/-- A feature on the PCT line layer. -/
def pctDemoFeature : Feature :=
  { layerId := some "pct-line", properties := [], source := "pct" }

/-- A feature owned by a layer absent from the priority order. -/
def unlistedFeature : Feature :=
  { layerId := some "future-layer", properties := [], source := "future-src" }

/-- A congressional-district fill feature for district 4. -/
def districtDemoFeature : Feature :=
  { layerId := some "congressional-districts-fill"
    properties := [("DISTRICT", .vStr "4"), ("LISTING_NA", .vStr "Smith, Jane")]
    source := "congressional-districts" }

/-- An oregon-trails property bag carrying a pre-calculated mileage. -/
def gisTrailProps : Props := [("GIS_MILES", .vNum 12)]

/-- District properties with a "Last, First" representative name. -/
def repDemoProps : Props :=
  [("LISTING_NA", .vStr "Smith, Jane"), ("Party", .vStr "D"),
   ("DISTRICT", .vStr "4")]

/-- The popup built from `repDemoProps`. -/
def repDemoPopup : DistrictPopup :=
  { districtNumber := "4", party := .vStr "D"
    repLabel := "Rep. Jane Smith (D–OR-04)"
    totalAcres := none, roadlessAcres := none }

/-- An oregon-trails property bag naming a PCT segment. -/
def pctSegmentProps : Props := [("TRAIL_NAME", .vStr "PACIFIC CREST TRAIL #2000")]

/-- District properties whose values are all present but falsy. -/
def falsyDistrictProps : Props :=
  [("DISTRICT", .vStr ""), ("LISTING_NA", .vStr ""), ("Party", .vStr ""),
   ("Acres", .vNum 0), ("SUM_RoadlessAreasAcres", .vNum 0)]

/-- The popup built from `falsyDistrictProps`. -/
def falsyDistrictPopup : DistrictPopup :=
  { districtNumber := "Unknown", party := .vStr "Unknown"
    repLabel := "Rep. Unknown Representative (Unknown–OR-Unknown)"
    totalAcres := none, roadlessAcres := none }

/-! ## Resolver lemmas -/

theorem maxFrom_cons (f : Feature) (fs : List Feature) (b : Int) :
    maxFrom (f :: fs) b = maxFrom fs (max b (featIdx f)) := rfl

theorem neg_one_le_featIdx (f : Feature) : -1 ≤ featIdx f := by
  unfold featIdx
  split
  · unfold priorityIndex
    split
    · omega
    · omega
  · omega

theorem le_maxFrom (fs : List Feature) (b : Int) : b ≤ maxFrom fs b := by
  induction fs generalizing b with
  | nil => simp [maxFrom]
  | cons f rest ih =>
    calc b ≤ max b (featIdx f) := le_max_left _ _
      _ ≤ maxFrom rest (max b (featIdx f)) := ih _
      _ = maxFrom (f :: rest) b := (maxFrom_cons f rest b).symm

theorem featIdx_le_maxFrom {f : Feature} {fs : List Feature} (b : Int)
    (h : f ∈ fs) : featIdx f ≤ maxFrom fs b := by
  induction fs generalizing b with
  | nil => cases h
  | cons g rest ih =>
    rw [maxFrom_cons]
    rcases List.mem_cons.mp h with rfl | h2
    · calc featIdx f ≤ max b (featIdx f) := le_max_right _ _
        _ ≤ maxFrom rest (max b (featIdx f)) := le_maxFrom _ _
    · exact ih _ h2

/-- Characterisation of the scanning loop: starting from running maximum `b`
(at least `-1`), it returns the first feature whose priority index attains the
overall maximum, provided that maximum improves on `b`; otherwise it keeps the
incoming candidate. -/
theorem resolveAux_eq (fs : List Feature) (best : Option Feature) (b : Int)
    (hb : -1 ≤ b) :
    resolveAux fs best b =
      if b < maxFrom fs b then fs.find? fun f => featIdx f = maxFrom fs b
      else best := by
  induction fs generalizing best b with
  | nil => simp [resolveAux, maxFrom]
  | cons f rest ih =>
    rw [maxFrom_cons]
    cases hL : f.layerId with
    | none =>
      have hidx : featIdx f = -1 := by simp [featIdx, hL]
      have hmax : max b (featIdx f) = b := by rw [hidx]; omega
      rw [hmax]
      rw [show resolveAux (f :: rest) best b = resolveAux rest best b from by
        simp [resolveAux, hL]]
      rw [ih best b hb]
      by_cases hc : b < maxFrom rest b
      · rw [if_pos hc, if_pos hc, List.find?_cons_of_neg]
        simp only [decide_eq_true_eq]
        rw [hidx]; omega
      · rw [if_neg hc, if_neg hc]
    | some lid =>
      have hidx : featIdx f = priorityIndex lid := by simp [featIdx, hL]
      by_cases hlt : b < priorityIndex lid
      · rw [show resolveAux (f :: rest) best b
            = resolveAux rest (some f) (priorityIndex lid) from by
          simp [resolveAux, hL, hlt]]
        rw [ih (some f) (priorityIndex lid) (by omega)]
        have hmax : max b (featIdx f) = priorityIndex lid := by rw [hidx]; omega
        rw [hmax]
        have hle : priorityIndex lid ≤ maxFrom rest (priorityIndex lid) :=
          le_maxFrom _ _
        by_cases hc : priorityIndex lid < maxFrom rest (priorityIndex lid)
        · rw [if_pos hc, if_pos (by omega), List.find?_cons_of_neg]
          simp only [decide_eq_true_eq]
          rw [hidx]; omega
        · have heq : maxFrom rest (priorityIndex lid) = priorityIndex lid := by
            omega
          rw [if_neg hc, if_pos (by omega), heq, List.find?_cons_of_pos]
          simp only [decide_eq_true_eq]
          rw [hidx]
      · rw [show resolveAux (f :: rest) best b = resolveAux rest best b from by
          simp [resolveAux, hL, hlt]]
        rw [ih best b hb]
        have hmax : max b (featIdx f) = b := by rw [hidx]; omega
        rw [hmax]
        by_cases hc : b < maxFrom rest b
        · rw [if_pos hc, if_pos hc, List.find?_cons_of_neg]
          simp only [decide_eq_true_eq]
          rw [hidx]; omega
        · rw [if_neg hc, if_neg hc]

/-- The resolver in closed form: the first feature attaining the maximum
priority index when some feature has a listed layer, `none` otherwise. -/
theorem resolveTopFeature_eq (fs : List Feature) :
    resolveTopFeature fs =
      if -1 < maxFrom fs (-1) then firstAtMax fs else none := by
  rw [resolveTopFeature, resolveAux_eq fs none (-1) le_rfl]
  rfl

theorem priorityIndex_nonneg_of_mem {lid : String} (h : lid ∈ layerPriority) :
    0 ≤ priorityIndex lid := by
  unfold priorityIndex
  cases hf : layerPriority.findIdx? fun s => s = lid with
  | some n => simp
  | none =>
    rw [List.findIdx?_eq_none_iff] at hf
    have := hf lid h
    simp at this

theorem mem_of_priorityIndex_nonneg {lid : String} (h : 0 ≤ priorityIndex lid) :
    lid ∈ layerPriority := by
  unfold priorityIndex at h
  split at h
  next n hf =>
    rw [List.findIdx?_eq_some_iff_getElem] at hf
    obtain ⟨hlt, hp, -⟩ := hf
    simp only [decide_eq_true_eq] at hp
    rw [← hp]
    exact layerPriority.getElem_mem hlt
  next hf => omega

theorem featIdx_nonneg_iff (f : Feature) :
    0 ≤ featIdx f ↔ ∃ lid, f.layerId = some lid ∧ lid ∈ layerPriority := by
  constructor
  · intro h
    unfold featIdx at h
    split at h
    next lid hL => exact ⟨lid, hL, mem_of_priorityIndex_nonneg h⟩
    next hL => omega
  · rintro ⟨lid, hL, hm⟩
    have : featIdx f = priorityIndex lid := by simp [featIdx, hL]
    rw [this]
    exact priorityIndex_nonneg_of_mem hm

/-! ## Claim C3: the resolver picks the maximum-priority feature,
first in input order on ties -/

/-- C3: for every list of features under the click point that contains at
least one feature from a layer listed in the fixed 5-element priority order,
`resolveTopFeature` returns exactly the first feature (in input enumeration
order) whose priority index attains the maximum over the list; in particular
ties are broken deterministically by input order. -/
theorem claim_C3_resolver_max_first (fs : List Feature)
    (h : ∃ f ∈ fs, ∃ lid, f.layerId = some lid ∧ lid ∈ layerPriority) :
    resolveTopFeature fs = firstAtMax fs := by
  obtain ⟨f, hmem, hlid⟩ := h
  have h0 : 0 ≤ featIdx f := (featIdx_nonneg_iff f).mpr hlid
  have h1 : featIdx f ≤ maxFrom fs (-1) := featIdx_le_maxFrom (-1) hmem
  rw [resolveTopFeature_eq, if_pos (by omega)]

/-- C3 witness: with features from `roadless-fill` (index 2) and `pct-line`
(index 4) under one point, the resolver returns the `pct-line` feature. -/
theorem claim_C3_witness :
    resolveTopFeature [roadlessDemoFeature, pctDemoFeature] =
        firstAtMax [roadlessDemoFeature, pctDemoFeature] ∧
      resolveTopFeature [roadlessDemoFeature, pctDemoFeature] =
        some pctDemoFeature := by
  have h := claim_C3_resolver_max_first [roadlessDemoFeature, pctDemoFeature]
    ⟨roadlessDemoFeature, by decide, "roadless-fill", by decide, by decide⟩
  exact ⟨h, by decide⟩

/-! ## Claim C4: features from unlisted layers -/

/-- C4 counterexample: a feature whose layer is absent from the priority
order, alone under the click point, is not returned as the top feature; the
resolver yields `null`, refuting the claim that it may still be the sole
result. -/
theorem claim_C4_counterexample :
    resolveTopFeature [unlistedFeature] = none := by decide

/-- C4 (amended): a feature whose owning layer is absent from the priority
order is treated as priority `-1` and is never returned, not even when no
listed-layer feature exists under the click point (the loop starts its
running maximum at `-1` and only strict improvements are kept): every
resolved feature belongs to a listed layer. -/
theorem claim_C4_unlisted_never_returned (fs : List Feature) (f : Feature)
    (h : resolveTopFeature fs = some f) :
    ∃ lid, f.layerId = some lid ∧ lid ∈ layerPriority := by
  rw [resolveTopFeature_eq] at h
  by_cases hc : -1 < maxFrom fs (-1)
  · rw [if_pos hc] at h
    unfold firstAtMax at h
    have hp := List.find?_some h
    simp only [decide_eq_true_eq] at hp
    exact (featIdx_nonneg_iff f).mp (by omega)
  · rw [if_neg hc] at h
    cases h

/-- C4 witness: a resolved `pct-line` feature indeed belongs to a listed
layer. -/
theorem claim_C4_witness :
    resolveTopFeature [pctDemoFeature] = some pctDemoFeature ∧
      ∃ lid, pctDemoFeature.layerId = some lid ∧ lid ∈ layerPriority :=
  ⟨by decide, claim_C4_unlisted_never_returned [pctDemoFeature] pctDemoFeature
    (by decide)⟩

/-! ## Popup-builder helper lemmas -/

theorem strFallback_isStr {props : Props} {k : String} (fb : String)
    (h : (∃ t, lookup props k = some (.vStr t)) ∨ lookup props k = none) :
    ∃ t, strFallback props k fb = .vStr t := by
  unfold strFallback
  rcases h with ⟨t, ht⟩ | h
  · rw [ht]
    by_cases htr : truthy (Value.vStr t) = true <;> simp [htr]
  · rw [h]; exact ⟨fb, rfl⟩

theorem buildDistrictPopup_isSome {props : Props}
    (hD : (∃ t, lookup props "DISTRICT" = some (.vStr t)) ∨
      lookup props "DISTRICT" = none)
    (hL : (∃ t, lookup props "LISTING_NA" = some (.vStr t)) ∨
      lookup props "LISTING_NA" = none) :
    (buildDistrictPopup props).isSome = true := by
  obtain ⟨t1, h1⟩ := strFallback_isStr "Unknown" hD
  obtain ⟨t2, h2⟩ := strFallback_isStr "Unknown Representative" hL
  unfold buildDistrictPopup formattedRepName districtNumberStr
  rw [h1, h2]
  simp

/-! ## Claim C1: the general click handler's state transition -/

/-- C1: for every click, resolving to a feature on one of the two
congressional-district layers whose `DISTRICT` property is a non-empty string
`s` (and whose `LISTING_NA` value, if truthy, is a string) transitions the
selection state to `Selected s` and opens a district popup; resolving to a
non-district feature, or to no feature at all, transitions the state to
`Unselected` with no popup. -/
theorem claim_C1_click_handler (fs : List Feature) :
    (∀ f s, resolveTopFeature fs = some f → isDistrictLayer f.layerId = true →
      lookup f.properties "DISTRICT" = some (.vStr s) → s ≠ "" →
      ((∃ t, lookup f.properties "LISTING_NA" = some (.vStr t)) ∨
        lookup f.properties "LISTING_NA" = none) →
      (generalClickHandler fs).state = some (.vStr s) ∧
        (generalClickHandler fs).popup.isSome = true) ∧
    (∀ f, resolveTopFeature fs = some f → isDistrictLayer f.layerId = false →
      generalClickHandler fs = ⟨none, none⟩) ∧
    (resolveTopFeature fs = none → generalClickHandler fs = ⟨none, none⟩) := by
  refine ⟨?_, ?_, ?_⟩
  · intro f s hres hd hD hs hL
    have hst : truthy (Value.vStr s) = true := by
      simp [truthy, hs]
    constructor
    · simp only [generalClickHandler, hres, hd, if_pos]
      simp [truthyLookup, hD, hst]
    · simp only [generalClickHandler, hres, hd, if_pos]
      exact buildDistrictPopup_isSome (Or.inl ⟨s, hD⟩) hL
  · intro f hres hd
    simp [generalClickHandler, hres, hd]
  · intro hres
    simp [generalClickHandler, hres]

/-- C1 witness: a click resolving to the district-4 fill feature yields state
`Selected "4"` with a popup; a click resolving to a `pct-line` feature, and a
click over no features, both yield the `Unselected` state. -/
theorem claim_C1_witness :
    ((generalClickHandler [districtDemoFeature]).state = some (.vStr "4") ∧
      (generalClickHandler [districtDemoFeature]).popup.isSome = true) ∧
    generalClickHandler [pctDemoFeature] = ⟨none, none⟩ ∧
    generalClickHandler [] = ⟨none, none⟩ :=
  ⟨(claim_C1_click_handler [districtDemoFeature]).1 districtDemoFeature "4"
      (by decide) (by decide) (by decide) (by decide)
      (Or.inl ⟨"Smith, Jane", by decide⟩),
   (claim_C1_click_handler [pctDemoFeature]).2.1 pctDemoFeature (by decide)
      (by decide),
   (claim_C1_click_handler []).2.2 (by decide)⟩

/-! ## Claim C5: popup close resets the selection unconditionally -/

/-- C5: the popup-close listener sets the selection state to null from every
prior state; in particular closing with the state already `Unselected` is a
no-op transition, and the handler is a total function (no error). -/
theorem claim_C5_popup_close (s : Option Value) :
    step s Event.popupClose = none ∧ step none Event.popupClose = none :=
  ⟨rfl, rfl⟩

/-! ## Claim C2: paint derivation is a pure function of (state, zoom) -/

/-- C2: the zoom handler and the selection effect install identical paint;
above zoom 8 the baseline constants (0.1 / 0.8 / 1.5) are installed
regardless of state; at zoom at most 8 (including exactly 8) the unselected
state installs the baseline constants, while a selected district `d` (a
truthy value) installs expressions evaluating to 0.4 / 1.0 / 2.5 on features
whose `DISTRICT` property equals `d` and to the baseline on all other
features. -/
theorem claim_C2_paint_derivation (s : Option Value) (z : ℚ) (props : Props) :
    districtPaintOnZoom s z = districtPaintOnSelect s z ∧
    (8 < z → districtPaintOnSelect s z = baselinePaint) ∧
    (z ≤ 8 → s = none → districtPaintOnSelect s z = baselinePaint) ∧
    (z ≤ 8 → ∀ d, s = some d → truthy d = true →
      (lookup props "DISTRICT" = some d →
        evalPaintVal (districtPaintOnSelect s z).fillOpacity props = 0.4 ∧
        evalPaintVal (districtPaintOnSelect s z).lineOpacity props = 1.0 ∧
        evalPaintVal (districtPaintOnSelect s z).lineWidth props = 2.5) ∧
      (lookup props "DISTRICT" ≠ some d →
        evalPaintVal (districtPaintOnSelect s z).fillOpacity props = 0.1 ∧
        evalPaintVal (districtPaintOnSelect s z).lineOpacity props = 0.8 ∧
        evalPaintVal (districtPaintOnSelect s z).lineWidth props = 1.5)) := by
  refine ⟨rfl, ?_, ?_, ?_⟩
  · intro hz
    unfold districtPaintOnSelect
    rw [if_neg (by exact not_le.mpr hz)]
  · intro hz hs
    subst hs
    unfold districtPaintOnSelect
    rw [if_pos hz]
  · intro hz d hs ht
    subst hs
    have hsel : districtPaintOnSelect (some d) z = selectedPaint d := by
      unfold districtPaintOnSelect
      rw [if_pos hz]
      simp [ht]
    rw [hsel]
    constructor
    · intro hmatch
      simp [selectedPaint, evalPaintVal, hmatch]
    · intro hmatch
      simp [selectedPaint, evalPaintVal, hmatch]

/-- C2 witness: at zoom exactly 8 with district "4" selected, the installed
expressions evaluate to 0.4 / 1.0 / 2.5 on a feature whose `DISTRICT`
property is "4" and to 0.1 / 0.8 / 1.5 on a feature of district "2"; at a
zoom above the threshold (9) the baseline constants are installed despite the
selection. -/
theorem claim_C2_witness :
    (evalPaintVal (districtPaintOnSelect (some (.vStr "4")) 8).fillOpacity
        [("DISTRICT", Value.vStr "4")] = 0.4 ∧
      evalPaintVal (districtPaintOnSelect (some (.vStr "4")) 8).lineOpacity
        [("DISTRICT", Value.vStr "4")] = 1.0 ∧
      evalPaintVal (districtPaintOnSelect (some (.vStr "4")) 8).lineWidth
        [("DISTRICT", Value.vStr "4")] = 2.5) ∧
    (evalPaintVal (districtPaintOnSelect (some (.vStr "4")) 8).fillOpacity
        [("DISTRICT", Value.vStr "2")] = 0.1 ∧
      evalPaintVal (districtPaintOnSelect (some (.vStr "4")) 8).lineOpacity
        [("DISTRICT", Value.vStr "2")] = 0.8 ∧
      evalPaintVal (districtPaintOnSelect (some (.vStr "4")) 8).lineWidth
        [("DISTRICT", Value.vStr "2")] = 1.5) ∧
    districtPaintOnSelect (some (.vStr "4")) 9 = baselinePaint :=
  ⟨((claim_C2_paint_derivation (some (.vStr "4")) 8
        [("DISTRICT", Value.vStr "4")]).2.2.2 (by decide) (.vStr "4") rfl
      (by decide)).1 (by decide),
   ((claim_C2_paint_derivation (some (.vStr "4")) 8
        [("DISTRICT", Value.vStr "2")]).2.2.2 (by decide) (.vStr "4") rfl
      (by decide)).2 (by decide),
   (claim_C2_paint_derivation (some (.vStr "4")) 9 []).2.1
      (by decide)⟩

/-! ## Claim C6: area computation and its sentinel -/

/-- C6 counterexample: a zero-area geometry gives a finite 0 acres, which is
displayed as a formatted "0", not as the "—" sentinel. -/
theorem claim_C6_counterexample :
    computeAreaAcres (GeomResult.ok 0) = some 0 ∧
      computeAreaAcres (GeomResult.ok 0) ≠ none := by
  constructor
  · simp [computeAreaAcres]
  · simp [computeAreaAcres]

/-- C6 (amended): the area popup divides the square meters by 4046.8564224
and shows the "—" sentinel exactly when the geometry computation throws or
its result is non-finite; a zero area is finite and yields 0, not the
sentinel; the computation is total (the `try`/`catch` lets no exception
propagate). -/
theorem claim_C6_area_contract (r : GeomResult) :
    (computeAreaAcres r = none ↔ r = .nonFinite ∨ r = .err) ∧
    (∀ m2, r = .ok m2 → computeAreaAcres r = some (m2 / acreDivisor)) := by
  cases r <;> simp [computeAreaAcres]

/-- C6 witness: one square-meter value is converted by the divisor, and a
thrown computation yields the sentinel. -/
theorem claim_C6_witness :
    computeAreaAcres (GeomResult.ok 1) = some (1 / acreDivisor) ∧
      computeAreaAcres GeomResult.err = none :=
  ⟨(claim_C6_area_contract (GeomResult.ok 1)).2 1 rfl,
   (claim_C6_area_contract GeomResult.err).1.mpr (Or.inr rfl)⟩

/-! ## Claim C7: trail length display -/

/-- C7 counterexample: an `oregon-trails` feature with a truthy `GIS_MILES`
property displays the pre-calculated value, not the geodesic length computed
from the geometry. -/
theorem claim_C7_counterexample :
    lengthText "oregon-trails" gisTrailProps (GeomResult.ok 1000) =
        LengthDisplay.gisMiles (.vNum 12) ∧
      lengthText "oregon-trails" gisTrailProps (GeomResult.ok 1000) ≠
        LengthDisplay.computedMiles (1000 * mileFactor) := by
  constructor
  · decide
  · decide

/-- C7 (amended): a click on the dedicated `pct` source always displays the
hardcoded canonical length string; an `oregon-trails` feature with a truthy
`GIS_MILES` property displays that pre-calculated value; in every other case
the geodesic length in meters is converted to miles with the factor
0.000621371, with the "—" sentinel when the computation throws or is
non-finite. -/
theorem claim_C7_length_display (src : String) (props : Props)
    (r : GeomResult) :
    (lengthText "pct" props r = .canonical pctLengthString) ∧
    (∀ v, src = "oregon-trails" → truthyLookup props "GIS_MILES" = some v →
      lengthText src props r = .gisMiles v) ∧
    (src ≠ "pct" → (src = "oregon-trails" →
        truthyLookup props "GIS_MILES" = none) →
      lengthText src props r =
        match r with
        | .ok meters => .computedMiles (meters * mileFactor)
        | .nonFinite => .sentinel
        | .err => .sentinel) := by
  refine ⟨?_, ?_, ?_⟩
  · unfold lengthText
    rw [if_neg (by simp)]
    rw [if_pos rfl]
  · intro v hsrc hv
    subst hsrc
    unfold lengthText
    rw [if_pos (by simp [hv])]
    rw [hv]
  · intro hpct hgis
    unfold lengthText
    rw [if_neg ?hcond, if_neg hpct]
    case hcond =>
      rintro ⟨hsrc, hsome⟩
      rw [hgis hsrc] at hsome
      simp at hsome

/-- C7 witness: the pct source shows the canonical string even with a
computable geometry; a trail without `GIS_MILES` gets the converted geodesic
length; a failing geometry gives the sentinel. -/
theorem claim_C7_witness :
    lengthText "pct" [] (GeomResult.ok 1000) = .canonical pctLengthString ∧
    lengthText "oregon-trails" gisTrailProps (GeomResult.err) =
      .gisMiles (.vNum 12) ∧
    lengthText "oregon-trails" [] (GeomResult.ok 1000) =
      .computedMiles (1000 * mileFactor) ∧
    lengthText "oregon-trails" [] GeomResult.err = .sentinel :=
  ⟨(claim_C7_length_display "pct" [] (GeomResult.ok 1000)).1,
   (claim_C7_length_display "oregon-trails" gisTrailProps GeomResult.err).2.1
     (.vNum 12) rfl (by decide),
   (claim_C7_length_display "oregon-trails" [] (GeomResult.ok 1000)).2.2
     (by decide) (fun _ => by decide),
   (claim_C7_length_display "oregon-trails" [] GeomResult.err).2.2
     (by decide) (fun _ => by decide)⟩

/-! ## Claim C8: the representative label -/

/-- The code's reformatting (with its redundant guard against the fallback
string, which contains no ", " and therefore never splits in two) agrees with
the specification's reordering rule on every input. -/
theorem formatRepName_eq_spec (raw : String) :
    formatRepName raw = specRepReorder raw := by
  unfold formatRepName specRepReorder
  by_cases h : raw = "Unknown Representative"
  · subst h
    decide
  · rw [if_neg h]

/-- C8: for a district feature with string-valued, non-empty `LISTING_NA`,
`Party` and `DISTRICT` properties, the popup's representative label is
exactly `Rep. {name} ({party}–OR-{district padded to two digits})`, where the
name is reordered from "Last, First" to "First Last" exactly when splitting
on ", " gives two parts (pass-through otherwise), and the district string is
left-padded with "0" when shorter than two characters. -/
theorem claim_C8_rep_label (props : Props) (raw p d : String)
    (pc : DistrictPopup)
    (hraw : lookup props "LISTING_NA" = some (.vStr raw)) (hraw2 : raw ≠ "")
    (hp : lookup props "Party" = some (.vStr p)) (hp2 : p ≠ "")
    (hd : lookup props "DISTRICT" = some (.vStr d)) (hd2 : d ≠ "")
    (hpc : buildDistrictPopup props = some pc) :
    pc.repLabel =
      "Rep. " ++ specRepReorder raw ++ " (" ++ p ++ "–OR-" ++ padStart2 d
        ++ ")" ∧
    padStart2 "3" = "03" ∧ padStart2 "12" = "12" ∧
    specRepReorder "Smith, Jane" = "Jane Smith" ∧
    specRepReorder "Unknown Representative" = "Unknown Representative" := by
  have hfr : strFallback props "LISTING_NA" "Unknown Representative"
      = .vStr raw := by
    simp [strFallback, hraw, truthy, hraw2]
  have hfp : strFallback props "Party" "Unknown" = .vStr p := by
    simp [strFallback, hp, truthy, hp2]
  have hfd : strFallback props "DISTRICT" "Unknown" = .vStr d := by
    simp [strFallback, hd, truthy, hd2]
  rw [buildDistrictPopup] at hpc
  rw [formattedRepName, hfr] at hpc
  rw [districtNumberStr, hfd] at hpc
  simp only [Option.some.injEq] at hpc
  subst hpc
  refine ⟨?_, by decide, by decide, by decide, by decide⟩
  simp only [hfp, valueDisplay, formatRepName_eq_spec]

/-- C8 witness: properties `LISTING_NA = "Smith, Jane"`, `Party = "D"`,
`DISTRICT = "4"` produce the label "Rep. Jane Smith (D–OR-04)". -/
theorem claim_C8_witness :
    (buildDistrictPopup repDemoProps).map DistrictPopup.repLabel =
      some "Rep. Jane Smith (D–OR-04)" := by
  have h := claim_C8_rep_label repDemoProps "Smith, Jane" "D" "4" repDemoPopup
    (by decide) (by decide) (by decide) (by decide) (by decide) (by decide)
    (by decide)
  rw [show buildDistrictPopup repDemoProps = some repDemoPopup from by decide]
  simp only [Option.map_some']
  rw [h.1]
  decide

/-! ## Claim C9: trail classification dispatch -/

/-- C9: trail classification dispatches on the source id: the dedicated `pct`
source always yields the fixed canonical name and description, so the
substring override never applies to it; for `oregon-trails` the name is the
first truthy value among `TRAIL_NAME`, `NAME`, `TRAIL` with the generic
fallback (and the description from `DESCRIPTION` with its fallback), and the
result is re-labelled to the canonical PCT-section pair exactly when
`TRAIL_NAME` is a truthy string containing the case-sensitive substring
"PACIFIC CREST". -/
theorem claim_C9_trail_classification (props : Props) :
    (classifyTrail "pct" props =
      some (.vStr "Pacific Crest Trail - Oregon",
        .vStr "A long-distance hiking trail spanning the length of Oregon")) ∧
    (∀ s, lookup props "TRAIL_NAME" = some (.vStr s) → s ≠ "" →
      strIncludes s "PACIFIC CREST" = true →
      classifyTrail "oregon-trails" props =
        some (.vStr "Pacific Crest Trail - Oregon Section",
          .vStr "A long-distance hiking trail spanning from Canada to Mexico")) ∧
    ((∀ v, lookup props "TRAIL_NAME" = some v →
        ∃ s, v = Value.vStr s ∧
          (s = "" ∨ strIncludes s "PACIFIC CREST" = false)) →
      classifyTrail "oregon-trails" props =
        some (firstTruthy props ["TRAIL_NAME", "NAME", "TRAIL"]
            (.vStr "Oregon Trail"),
          firstTruthy props ["DESCRIPTION"] (.vStr "A trail in Oregon"))) := by
  refine ⟨?_, ?_, ?_⟩
  · unfold classifyTrail
    rw [if_pos rfl]
  · intro s hs hne hinc
    have ht : truthy (Value.vStr s) = true := by simp [truthy, hne]
    unfold classifyTrail
    rw [if_neg (by decide), if_pos rfl, hs]
    simp [ht, hinc]
  · intro hcond
    unfold classifyTrail
    rw [if_neg (by decide), if_pos rfl]
    cases hTN : lookup props "TRAIL_NAME" with
    | none => simp
    | some v =>
      obtain ⟨s, rfl, hor⟩ := hcond v hTN
      rcases hor with rfl | hinc
      · simp [truthy]
      · by_cases ht : truthy (Value.vStr s) = true <;> simp [ht, hinc]

/-- C9 witness: a trail named "PACIFIC CREST TRAIL #2000" on the generic
source is re-labelled; the same properties on the dedicated source keep the
dedicated canonical text; and an unnamed generic trail falls back. -/
theorem claim_C9_witness :
    classifyTrail "oregon-trails" pctSegmentProps =
      some (.vStr "Pacific Crest Trail - Oregon Section",
        .vStr "A long-distance hiking trail spanning from Canada to Mexico") ∧
    classifyTrail "pct" pctSegmentProps =
      some (.vStr "Pacific Crest Trail - Oregon",
        .vStr "A long-distance hiking trail spanning the length of Oregon") ∧
    classifyTrail "oregon-trails" [] =
      some (.vStr "Oregon Trail", .vStr "A trail in Oregon") :=
  ⟨(claim_C9_trail_classification pctSegmentProps).2.1
      "PACIFIC CREST TRAIL #2000" (by decide) (by decide) (by decide),
   (claim_C9_trail_classification pctSegmentProps).1,
   (claim_C9_trail_classification []).2.2 (fun v hv => by simp [lookup] at hv)⟩

/-! ## Claim C10: truthiness, not key existence, decides presence -/

/-- C10: in the district popup a present-but-falsy property behaves exactly
like an absent one: a zero `Acres` or `SUM_RoadlessAreasAcres` shows the "—"
sentinel rather than a formatted 0, and an empty-string `DISTRICT`,
`LISTING_NA` or `Party` takes the "Unknown" fallback; an absent key yields
the same outcomes. -/
theorem claim_C10_truthiness (props : Props) (pc : DistrictPopup)
    (hpc : buildDistrictPopup props = some pc) :
    (lookup props "Acres" = some (.vNum 0) → pc.totalAcres = none) ∧
    (lookup props "SUM_RoadlessAreasAcres" = some (.vNum 0) →
      pc.roadlessAcres = none) ∧
    (lookup props "DISTRICT" = some (.vStr "") →
      pc.districtNumber = "Unknown") ∧
    (lookup props "Party" = some (.vStr "") → pc.party = .vStr "Unknown") ∧
    (lookup props "LISTING_NA" = some (.vStr "") →
      formattedRepName props = some "Unknown Representative") ∧
    (∀ k, lookup props k = none → truthyLookup props k = none) := by
  rw [buildDistrictPopup] at hpc
  cases hfr : formattedRepName props with
  | none => rw [hfr] at hpc; cases hpc
  | some fn =>
  cases hdn : districtNumberStr props with
  | none => rw [hfr, hdn] at hpc; cases hpc
  | some dn =>
  rw [hfr, hdn] at hpc
  simp only [Option.some.injEq] at hpc
  subst hpc
  refine ⟨?_, ?_, ?_, ?_, ?_, ?_⟩
  · intro h; simp [truthyLookup, h, truthy]
  · intro h; simp [truthyLookup, h, truthy]
  · intro h
    rw [districtNumberStr] at hdn
    rw [show strFallback props "DISTRICT" "Unknown" = .vStr "Unknown" from by
      simp [strFallback, h, truthy]] at hdn
    simpa using hdn.symm
  · intro h
    simp [strFallback, h, truthy]
  · intro h
    have hval : formattedRepName props = some "Unknown Representative" := by
      unfold formattedRepName
      rw [show strFallback props "LISTING_NA" "Unknown Representative"
          = .vStr "Unknown Representative" from by simp [strFallback, h, truthy]]
      decide
    rw [← hfr]
    exact hval
  · intro k h
    simp [truthyLookup, h]

/-- C10 witness: all-falsy district properties produce the popup with "—"
acreage fields and the "Unknown" fallbacks. -/
theorem claim_C10_witness :
    falsyDistrictPopup.totalAcres = none ∧
    falsyDistrictPopup.roadlessAcres = none ∧
    falsyDistrictPopup.districtNumber = "Unknown" ∧
    falsyDistrictPopup.party = .vStr "Unknown" :=
  have h := claim_C10_truthiness falsyDistrictProps falsyDistrictPopup
    (by decide)
  ⟨h.1 (by decide), h.2.1 (by decide), h.2.2.1 (by decide),
   h.2.2.2.1 (by decide)⟩

end RoadlessMap
